import Mathlib

/-!
Shallow embedding of `src/cvat-core/src/api-implementation.js` (the CVAT core
API binding layer): filter validation, exclusivity checks, wire-name
translation, collection adaptation and the per-resource fetch operations.

JavaScript objects used as filters / query parameter bags are modelled as
ordered association lists `List (String × JsVal)` (JS objects preserve string
key insertion order and cannot hold duplicate keys; where a proof needs key
uniqueness it takes an explicit `Nodup` hypothesis).  The external transport
(`serverProxy`) is an abstract oracle, and every operation returns, next to
its result, the ordered list of transport calls it issued, so that statements
about "which endpoint was queried with which query" are expressible.
-/

namespace Cvat

/-- A JavaScript value as it occurs in filters and raw records: `undefined`,
integers, booleans, strings, or an array of integers (used for task-id
lists on raw project records). -/
inductive JsVal where
  | jsUndefined : JsVal
  | int (n : Int) : JsVal
  | bool (b : Bool) : JsVal
  | str (s : String) : JsVal
  | arr (elems : List Int) : JsVal
deriving DecidableEq, Repr

/-- JavaScript truthiness of a `JsVal` (`undefined`, `0`, `false` and `""`
are falsy; arrays are always truthy). -/
def truthy : JsVal → Bool
  | .jsUndefined => false
  | .int n => n != 0
  | .bool b => b
  | .str s => s != ""
  | .arr _ => true

/-- JavaScript `String(value)` coercion as performed by `URLSearchParams.set`. -/
def valueToStr : JsVal → String
  | .jsUndefined => "undefined"
  | .int n => toString n
  | .bool b => if b then "true" else "false"
  | .str s => s
  | .arr l => String.intercalate "," (l.map toString)

/-- First binding of key `k` in an association list (JS property read). -/
def aLookup {α : Type} (l : List (String × α)) (k : String) : Option α :=
  match l with
  | [] => none
  | p :: rest => if p.1 = k then some p.2 else aLookup rest k

/-- JS property write `obj[k] = v` / `URLSearchParams.set`: replace the
binding in place when the key is present, append otherwise. -/
def assocSet {α : Type} (l : List (String × α)) (k : String) (v : α) : List (String × α) :=
  match l with
  | [] => [(k, v)]
  | p :: rest => if p.1 = k then (k, v) :: rest else p :: assocSet rest k v

/-- A filter object: ordered key/value bindings with client-side field names. -/
abbrev Filter : Type := List (String × JsVal)

/-- JS `'k' in obj`: key presence. -/
def hasKey (l : List (String × JsVal)) (k : String) : Bool :=
  (aLookup l k).isSome

/-- JS property read `obj.k`, `undefined` when the key is absent. -/
def lookupD (l : List (String × JsVal)) (k : String) : JsVal :=
  (aLookup l k).getD .jsUndefined

/-- The `ArgumentError` raised by the core, with the spec's taxonomy
(§7) as kinds: unknown filter key, value failing its predicate, mutually
exclusive fields co-supplied, and a non-instance argument. -/
inductive ArgError where
  | invalidField (key : String)
  | invalidType (key : String)
  | conflictingFields (keys : List String)
  | notAnInstance (name : String)
deriving DecidableEq, Repr

/-- A filter schema: field name to validator predicate. -/
abbrev Schema : Type := List (String × (JsVal → Bool))

/-- Validator `isInteger` (common.js checker, as used by the schemas). -/
def isInteger : JsVal → Bool
  | .int _ => true
  | _ => false

/-- Validator `isBoolean`. -/
def isBoolean : JsVal → Bool
  | .bool _ => true
  | _ => false

/-- Validator `isString`. -/
def isString : JsVal → Bool
  | .str _ => true
  | _ => false

/-- Validator `isEnum.bind(E)`: membership of a string value in the fixed
value set of the enum `E`. -/
def isEnum (values : List String) : JsVal → Bool
  | .str s => values.contains s
  | _ => false

/-- Modelled from the spec: fixed enum value set of `TaskStatus`
(`./enums` is not under src/; §4.1 specifies enum predicates as membership
in a fixed per-field value set). -/
def TaskStatusValues : List String := ["annotation", "validation", "completed"]

/-- Modelled from the spec: fixed enum value set of `TaskMode` (`./enums`
not under src/). -/
def TaskModeValues : List String := ["annotation", "interpolation"]

/-- Modelled from the spec: fixed enum value set of `DimensionType`
(`./enums` not under src/). -/
def DimensionTypeValues : List String := ["2d", "3d"]

/-- Modelled from the spec: fixed enum value set of
`CloudStorageProviderType` (`./enums` not under src/). -/
def CloudStorageProviderTypeValues : List String :=
  ["AWS_S3_BUCKET", "AZURE_CONTAINER", "GOOGLE_CLOUD_STORAGE"]

/-- Modelled from the spec: fixed enum value set of
`CloudStorageCredentialsType` (`./enums` not under src/). -/
def CloudStorageCredentialsTypeValues : List String :=
  ["KEY_SECRET_KEY_PAIR", "ACCOUNT_NAME_TOKEN_PAIR", "ANONYMOUS_ACCESS"]

/-- Modelled from the spec: `checkFilter(filter, fields)` (`./common` is not
under src/).  §4.1: for every filter key the schema must contain that key,
else it fails with `InvalidFieldError` naming the key; for every key present
in both, the schema's predicate must accept the value, else it fails with
`InvalidTypeError`.  Pure check, no side effects. -/
def checkFilter (filter : Filter) (fields : Schema) : Except ArgError Unit :=
  match filter with
  | [] => .ok ()
  | p :: rest =>
    match aLookup fields p.1 with
    | none => .error (.invalidField p.1)
    | some chk => if chk p.2 then checkFilter rest fields else .error (.invalidType p.1)

/-- Members of an exclusivity group that occur as keys of the filter. -/
def presentMembers (filter : Filter) (group : List String) : List String :=
  group.filter (fun g => hasKey filter g)

/-- Modelled from the spec: `checkExclusiveFields(filter, group, companions)`
(`./common` is not under src/).  §4.2: counts how many of the group's field
names appear as keys of the filter and fails with `ConflictingFieldsError`
listing the conflicting field names when more than one is present; a single
group member together with any other (companion) fields is permitted. -/
def checkExclusiveFields (filter : Filter) (group : List String)
    (companions : List String) : Except ArgError Unit :=
  if 1 < (presentMembers filter group).length then
    .error (.conflictingFields (presentMembers filter group))
  else
    .ok ()

/-- Modelled from the spec: `camelToSnake` (`./common` is not under src/).
§4.3: the general translation rule converts a mixed-case identifier into a
lower-case, word-separated identifier, e.g. `providerType` to
`provider_type`. -/
def camelToSnake (s : String) : String :=
  String.mk (s.data.foldr
    (fun c acc => if c.isUpper then '_' :: c.toLower :: acc else c :: acc) [])

/-- A raw job record as returned by the transport (opaque payload). -/
structure RawJob where
  jid : Int
deriving DecidableEq, Repr

/-- A raw task record: its id and the raw records of its jobs. -/
structure RawTask where
  tid : Int
  jobRecords : List RawJob
deriving DecidableEq, Repr

/-- A raw user record (opaque payload). -/
structure RawUser where
  uid : Int
deriving DecidableEq, Repr

/-- A raw project record: a JS object, modelled as its field bindings. -/
abbrev RawProject : Type := List (String × JsVal)

/-- A raw cloud storage record (opaque payload). -/
structure RawCloud where
  cid : Int
deriving DecidableEq, Repr

/-- Modelled from the spec: the `Job` domain entity (`./session` is not
under src/); §4.5 constructs it from the raw record. -/
structure Job where
  rawData : RawJob
deriving DecidableEq, Repr

/-- Modelled from the spec: `new Job(rawJob)`. -/
def makeJob (r : RawJob) : Job := ⟨r⟩

/-- Modelled from the spec: the `Task` domain entity (`./session` is not
under src/); §4.5: it exposes a job sub-collection built from the raw
record's job records. -/
structure Task where
  tid : Int
  jobs : List Job
deriving DecidableEq, Repr

/-- Modelled from the spec: `new Task(rawTask)`, whose `jobs` sub-collection
is the job entities of the raw record's job records, in order. -/
def makeTask (r : RawTask) : Task := ⟨r.tid, r.jobRecords.map makeJob⟩

/-- Modelled from the spec: the `User` domain entity (`./user` not under
src/). -/
structure User where
  rawData : RawUser
deriving DecidableEq, Repr

/-- Modelled from the spec: `new User(rawUser)`. -/
def makeUser (r : RawUser) : User := ⟨r⟩

/-- Modelled from the spec: the `Project` domain entity (`./project` not
under src/); §4.5: the constructor reads a fixed set of expected raw fields
(modelled here as `id`, `name` and `task_ids` - the task identifiers are
exposed under `task_ids`, and the raw name `tasks` is not among the exposed
fields).  Defensive shape checks of §4.5 are elided as no claim depends on
them. -/
structure Project where
  fields : List (String × JsVal)
deriving DecidableEq, Repr

/-- Modelled from the spec: `new Project(rawProject)` exposing the fixed
field set. -/
def makeProject (p : RawProject) : Project :=
  ⟨[("id", lookupD p "id"), ("name", lookupD p "name"),
    ("task_ids", lookupD p "task_ids")]⟩

/-- Modelled from the spec: the `CloudStorage` domain entity
(`./cloud-storage` not under src/). -/
structure CloudStorage where
  rawData : RawCloud
deriving DecidableEq, Repr

/-- Modelled from the spec: `new CloudStorage(raw)`. -/
def makeCloudStorage (r : RawCloud) : CloudStorage := ⟨r⟩

/-- Modelled from the spec: the `Organization` domain entity
(`./organization` not under src/); the implementation reads its `slug`. -/
structure Organization where
  slug : String
deriving DecidableEq, Repr

/-- Transport response of `serverProxy.tasks.get`: an ordered record list
with the server-declared total count attached (spec §6: "count attached"). -/
structure TasksData where
  records : List RawTask
  count : Nat
deriving DecidableEq, Repr

/-- Transport response of the generic `serverProxy.jobs.get(filter)` query
(spec §6: a results list plus count). -/
structure JobsData where
  results : List RawJob
  count : Nat
deriving DecidableEq, Repr

/-- Transport response of `serverProxy.projects.get` (count attached). -/
structure ProjectsData where
  records : List RawProject
  count : Nat
deriving DecidableEq, Repr

/-- Transport response of `serverProxy.cloudStorages.get` (count attached). -/
structure CloudsData where
  records : List RawCloud
  count : Nat
deriving DecidableEq, Repr

/-- The abstract transport collaborator (`serverProxy`), one oracle per
endpoint shape used by the embedded operations.  `jobsSingle` is the
direct single-record fetch by id (`serverProxy.jobs.get({id})`), which may
yield no record. -/
structure Transport where
  tasksFetch : List (String × JsVal) → TasksData
  jobsSingle : List (String × JsVal) → Option RawJob
  jobsGeneric : Filter → JobsData
  usersSelf : RawUser
  usersFetch : List (String × JsVal) → List RawUser
  projectsFetch : List (String × JsVal) → ProjectsData
  cloudStoragesFetch : List (String × String) → CloudsData

/-- A transport call issued by an operation, with the query it carried. -/
inductive Call where
  | tasksFetch (params : List (String × JsVal))
  | jobsSingle (params : List (String × JsVal))
  | jobsGeneric (filter : List (String × JsVal))
  | usersSelf
  | usersFetch (params : List (String × JsVal))
  | projectsFetch (params : List (String × JsVal))
  | cloudStoragesFetch (query : List (String × String))
deriving DecidableEq, Repr

/-- Result of the jobs operation: job entities in order, plus the `count`
attribute when one was attached (the by-id branches return plain arrays
without a count, the generic branch attaches the transport's count). -/
structure JobsResult where
  items : List Job
  count : Option Nat
deriving DecidableEq, Repr

/-- Result of the tasks operation: task entities in order plus the count
attribute copied from the transport response. -/
structure TasksResult where
  items : List Task
  count : Nat
deriving DecidableEq, Repr

/-- Result of the projects operation. -/
structure ProjectsResult where
  items : List Project
  count : Nat
deriving DecidableEq, Repr

/-- Result of the cloud storages operation. -/
structure CloudsResult where
  items : List CloudStorage
  count : Nat
deriving DecidableEq, Repr

/-- Filter schema of `cvat.users.get.implementation` (source lines 127-133). -/
def usersSchema : Schema :=
  [("id", isInteger), ("is_active", isBoolean), ("self", isBoolean),
   ("search", isString), ("limit", isInteger)]

/-- Filter schema of `cvat.jobs.get.implementation` (source lines 154-161). -/
def jobsSchema : Schema :=
  [("page", isInteger), ("stage", isString), ("state", isString),
   ("assignee", isString), ("taskID", isInteger), ("jobID", isInteger)]

/-- Filter schema of `cvat.tasks.get.implementation` (source lines 190-202). -/
def tasksSchema : Schema :=
  [("page", isInteger), ("projectId", isInteger), ("name", isString),
   ("id", isInteger), ("owner", isString), ("assignee", isString),
   ("search", isString), ("ordering", isString),
   ("status", isEnum TaskStatusValues), ("mode", isEnum TaskModeValues),
   ("dimension", isEnum DimensionTypeValues)]

/-- Filter schema of `cvat.projects.get.implementation` (source lines 234-242). -/
def projectsSchema : Schema :=
  [("id", isInteger), ("page", isInteger), ("name", isString),
   ("assignee", isString), ("owner", isString), ("search", isString),
   ("status", isEnum TaskStatusValues)]

/-- Filter schema of `cvat.cloudStorages.get.implementation`
(source lines 268-278). -/
def cloudSchema : Schema :=
  [("page", isInteger), ("displayName", isString), ("resourceName", isString),
   ("description", isString), ("id", isInteger), ("owner", isString),
   ("search", isString), ("providerType", isEnum CloudStorageProviderTypeValues),
   ("credentialsType", isEnum CloudStorageCredentialsTypeValues)]

/-- Query field enumeration of the tasks operation (source lines 207-219). -/
def tasksQueryFields : List String :=
  ["name", "owner", "assignee", "search", "ordering", "status", "mode",
   "id", "page", "projectId", "dimension"]

/-- Query field enumeration of the projects operation (source line 247). -/
def projectsQueryFields : List String :=
  ["name", "assignee", "owner", "search", "status", "id", "page"]

/-- Query field enumeration of the cloud storages operation (source lines
283-292); `resourceName` is deliberately absent, it is handled by the
special-case rename afterwards. -/
def cloudQueryFields : List String :=
  ["displayName", "credentialsType", "providerType", "owner", "search",
   "id", "page", "description"]

/-- The `searchParams` building loop of the tasks and projects operations
(source lines 206-223 and 246-251): for each enumerated field present on the
filter, set the `camelToSnake`-translated key on the parameter object. -/
def buildParamsLoop (filter : Filter) (fields : List String)
    (ps : List (String × JsVal)) : List (String × JsVal) :=
  match fields with
  | [] => ps
  | f :: rest =>
    buildParamsLoop filter rest
      (if hasKey filter f then assocSet ps (camelToSnake f) (lookupD filter f) else ps)

/-- Wire query of the tasks / projects operations. -/
def buildParams (filter : Filter) (fields : List String) : List (String × JsVal) :=
  buildParamsLoop filter fields []

/-- The `URLSearchParams` building loop of the cloud storages operation
(source lines 282-296): values are string-coerced as `URLSearchParams.set`
does. -/
def buildCloudLoop (filter : Filter) (fields : List String)
    (ps : List (String × String)) : List (String × String) :=
  match fields with
  | [] => ps
  | f :: rest =>
    buildCloudLoop filter rest
      (if hasKey filter f then
        assocSet ps (camelToSnake f) (valueToStr (lookupD filter f))
       else ps)

/-- Wire query of the cloud storages operation, including the special-case
rename of `resourceName` to wire key `resource` (source lines 298-300).
The trailing `URLSearchParams.toString()` serialization at the transport
boundary is left abstract: the transport oracle receives the key/value
bindings themselves. -/
def buildCloudQuery (filter : Filter) : List (String × String) :=
  let ps := buildCloudLoop filter cloudQueryFields []
  if hasKey filter "resourceName" then
    assocSet ps "resource" (valueToStr (lookupD filter "resourceName"))
  else ps

/-- The `searchParams` building loop of the users operation (source lines
140-145): every entry of the filter whose value is truthy and whose key is
not `self` is copied onto the parameter object. -/
def buildUserLoop (entries : List (String × JsVal))
    (ps : List (String × JsVal)) : List (String × JsVal) :=
  match entries with
  | [] => ps
  | p :: rest =>
    buildUserLoop rest (if truthy p.2 && p.1 != "self" then assocSet ps p.1 p.2 else ps)

/-- Wire query of the users operation (non-self branch). -/
def buildUserParams (filter : Filter) : List (String × JsVal) :=
  buildUserLoop filter []

/-- Embedding of `cvat.users.get.implementation` (source lines 126-151). -/
def usersGetImpl (t : Transport) (filter : Filter) :
    Except ArgError (List User) × List Call :=
  match checkFilter filter usersSchema with
  | .error e => (.error e, [])
  | .ok _ =>
    if hasKey filter "self" && truthy (lookupD filter "self") then
      (.ok [makeUser t.usersSelf], [.usersSelf])
    else
      let params := buildUserParams filter
      (.ok ((t.usersFetch params).map makeUser), [.usersFetch params])

/-- Embedding of `cvat.jobs.get.implementation` (source lines 153-187).
The source's `jobID` branch returns only when the single-record fetch
yields a record; otherwise control falls through to the generic paginated
query, which is made explicit here in the `none` case. -/
def jobsGetImpl (t : Transport) (filter : Filter) :
    Except ArgError JobsResult × List Call :=
  match checkFilter filter jobsSchema with
  | .error e => (.error e, [])
  | .ok _ =>
    if hasKey filter "taskID" && hasKey filter "jobID" then
      (.error (.conflictingFields ["taskID", "jobID"]), [])
    else if hasKey filter "taskID" then
      let params := [("id", lookupD filter "taskID")]
      match (t.tasksFetch params).records.head? with
      | some rawTask =>
        (.ok { items := (makeTask rawTask).jobs, count := none }, [.tasksFetch params])
      | none => (.ok { items := [], count := none }, [.tasksFetch params])
    else if hasKey filter "jobID" then
      let params := [("id", lookupD filter "jobID")]
      match t.jobsSingle params with
      | some rawJob =>
        (.ok { items := [makeJob rawJob], count := none }, [.jobsSingle params])
      | none =>
        let jobsData := t.jobsGeneric filter
        (.ok { items := jobsData.results.map makeJob, count := some jobsData.count },
         [.jobsSingle params, .jobsGeneric filter])
    else
      let jobsData := t.jobsGeneric filter
      (.ok { items := jobsData.results.map makeJob, count := some jobsData.count },
       [.jobsGeneric filter])

/-- Embedding of `cvat.tasks.get.implementation` (source lines 189-231). -/
def tasksGetImpl (t : Transport) (filter : Filter) :
    Except ArgError TasksResult × List Call :=
  match checkFilter filter tasksSchema with
  | .error e => (.error e, [])
  | .ok _ =>
    match checkExclusiveFields filter ["id", "search", "projectId"] ["page"] with
    | .error e => (.error e, [])
    | .ok _ =>
      let params := buildParams filter tasksQueryFields
      let tasksData := t.tasksFetch params
      (.ok { items := tasksData.records.map makeTask, count := tasksData.count },
       [.tasksFetch params])

/-- The per-record pre-construction reconciliation of the projects
operation (source lines 254-257): `project.task_ids = project.tasks`. -/
def projAdapt (p : RawProject) : RawProject :=
  assocSet p "task_ids" (lookupD p "tasks")

/-- Embedding of `cvat.projects.get.implementation` (source lines 233-262). -/
def projectsGetImpl (t : Transport) (filter : Filter) :
    Except ArgError ProjectsResult × List Call :=
  match checkFilter filter projectsSchema with
  | .error e => (.error e, [])
  | .ok _ =>
    match checkExclusiveFields filter ["id", "search"] ["page"] with
    | .error e => (.error e, [])
    | .ok _ =>
      let params := buildParams filter projectsQueryFields
      let projectsData := t.projectsFetch params
      (.ok { items := projectsData.records.map (fun p => makeProject (projAdapt p)),
             count := projectsData.count },
       [.projectsFetch params])

/-- Embedding of `cvat.cloudStorages.get.implementation`
(source lines 267-306). -/
def cloudStoragesGetImpl (t : Transport) (filter : Filter) :
    Except ArgError CloudsResult × List Call :=
  match checkFilter filter cloudSchema with
  | .error e => (.error e, [])
  | .ok _ =>
    match checkExclusiveFields filter ["id", "search"] ["page"] with
    | .error e => (.error e, [])
    | .ok _ =>
      let q := buildCloudQuery filter
      let data := t.cloudStoragesFetch q
      (.ok { items := data.records.map makeCloudStorage, count := data.count },
       [.cloudStoragesFetch q])

/-- The argument handed to the organization-activate operation: either an
`Organization` instance or any other JS value (JS `instanceof` dichotomy). -/
inductive OrgArg where
  | instOrg (o : Organization)
  | other (v : JsVal)
deriving DecidableEq, Repr

/-- Embedding of `cvat.organizations.activate.implementation` (source lines
314-317): `checkObjectType('organization', organization, null, Organization)`
(from `./common`, not under src/; modelled as the JS `instanceof` check it
performs, raising `ArgumentError` for a non-instance) followed by
`config.organizationID = organization.slug`.  The process-wide marker
`config.organizationID` is threaded as explicit state (`Option String`,
`none` for JS `null`). -/
def activateImpl (arg : OrgArg) (orgID : Option String) :
    Except ArgError Unit × Option String :=
  match arg with
  | .other _ => (.error (.notAnInstance "organization"), orgID)
  | .instOrg o => (.ok (), some o.slug)

/-- Embedding of `cvat.organizations.deactivate.implementation` (source
lines 319-321): `config.organizationID = null`. -/
def deactivateImpl (orgID : Option String) : Option String :=
  none

/-- A filter entry that the schema rejects: its key is unknown or its value
fails the key's predicate. -/
def badEntry (s : Schema) (p : String × JsVal) : Bool :=
  match aLookup s p.1 with
  | none => true
  | some chk => !(chk p.2)

/-- The filter holds at least one entry the schema rejects. -/
def hasBadEntry (filter : Filter) (s : Schema) : Bool :=
  filter.any (badEntry s)

theorem aLookup_assocSet_self {α : Type} (l : List (String × α)) (k : String) (v : α) :
    aLookup (assocSet l k v) k = some v := by
  induction l with
  | nil => simp [assocSet, aLookup]
  | cons p rest ih =>
    by_cases h : p.1 = k
    · simp [assocSet, h, aLookup]
    · simp [assocSet, h, aLookup, ih]

theorem aLookup_assocSet_ne {α : Type} (l : List (String × α)) (k k' : String) (v : α)
    (h : k' ≠ k) : aLookup (assocSet l k v) k' = aLookup l k' := by
  induction l with
  | nil => simp [assocSet, aLookup, Ne.symm h]
  | cons p rest ih =>
    by_cases hp : p.1 = k
    · simp [assocSet, hp, aLookup, Ne.symm h]
    · simp [assocSet, hp, aLookup, ih]

theorem aLookup_append_none {α : Type} (l1 l2 : List (String × α)) (k : String)
    (h1 : aLookup l1 k = none) : aLookup (l1 ++ l2) k = aLookup l2 k := by
  induction l1 with
  | nil => rfl
  | cons p rest ih =>
    by_cases hp : p.1 = k
    · simp [aLookup, hp] at h1
    · simp only [List.cons_append, aLookup, hp, if_neg hp] at h1 ⊢
      exact ih h1

theorem assocSet_eq_append {α : Type} (l : List (String × α)) (k : String) (v : α)
    (h : aLookup l k = none) : assocSet l k v = l ++ [(k, v)] := by
  induction l with
  | nil => rfl
  | cons p rest ih =>
    by_cases hp : p.1 = k
    · simp [aLookup, hp] at h
    · simp only [assocSet, if_neg hp, List.cons_append, List.cons.injEq, true_and]
      exact ih (by simpa [aLookup, hp] using h)

theorem hasKey_exists (filter : Filter) (k : String) (h : hasKey filter k = true) :
    ∃ p, p ∈ filter ∧ p.1 = k := by
  induction filter with
  | nil => simp [hasKey, aLookup] at h
  | cons p rest ih =>
    by_cases hp : p.1 = k
    · exact ⟨p, List.mem_cons_self _ _, hp⟩
    · have h' : hasKey rest k = true := by simpa [hasKey, aLookup, hp] using h
      obtain ⟨q, hq, hqk⟩ := ih h'
      exact ⟨q, List.mem_cons_of_mem _ hq, hqk⟩

theorem checkFilter_of_bad (filter : Filter) (s : Schema)
    (h : hasBadEntry filter s = true) :
    ∃ k, checkFilter filter s = .error (.invalidField k) ∨
      checkFilter filter s = .error (.invalidType k) := by
  induction filter with
  | nil => simp [hasBadEntry] at h
  | cons p rest ih =>
    cases hl : aLookup s p.1 with
    | none => exact ⟨p.1, Or.inl (by simp [checkFilter, hl])⟩
    | some chk =>
      cases hv : chk p.2 with
      | false => exact ⟨p.1, Or.inr (by simp [checkFilter, hl, hv])⟩
      | true =>
        have h' : hasBadEntry rest s = true := by
          simpa [hasBadEntry, badEntry, hl, hv] using h
        obtain ⟨k, hk⟩ := ih h'
        exact ⟨k, by simpa [checkFilter, hl, hv] using hk⟩

theorem buildCloudLoop_lookup_ne (filter : Filter) (k : String) :
    ∀ (fields : List String) (ps : List (String × String)),
      (∀ f ∈ fields, camelToSnake f ≠ k) →
      aLookup (buildCloudLoop filter fields ps) k = aLookup ps k := by
  intro fields
  induction fields with
  | nil => intro ps _; rfl
  | cons f rest ih =>
    intro ps h
    have hf : camelToSnake f ≠ k := h f (List.mem_cons_self _ _)
    have hrest : ∀ g ∈ rest, camelToSnake g ≠ k :=
      fun g hg => h g (List.mem_cons_of_mem _ hg)
    cases hk : hasKey filter f with
    | true =>
      simp only [buildCloudLoop, hk, if_pos]
      rw [ih _ hrest, aLookup_assocSet_ne _ _ _ _ (Ne.symm hf)]
    | false =>
      simp only [buildCloudLoop, hk, Bool.false_eq_true, if_false]
      exact ih _ hrest

theorem buildUserLoop_eq (entries : List (String × JsVal)) :
    ∀ ps : List (String × JsVal),
      (entries.map Prod.fst).Nodup →
      (∀ p ∈ entries, aLookup ps p.1 = none) →
      buildUserLoop entries ps =
        ps ++ entries.filter (fun p => truthy p.2 && p.1 != "self") := by
  induction entries with
  | nil => intro ps _ _; simp [buildUserLoop]
  | cons p rest ih =>
    intro ps hnd hdisj
    have hnd2 : (p.1 :: rest.map Prod.fst).Nodup := hnd
    have hnd' := List.nodup_cons.mp hnd2
    cases hc : (truthy p.2 && p.1 != "self") with
    | true =>
      simp only [buildUserLoop, hc, if_pos]
      rw [assocSet_eq_append _ _ _ (hdisj p (List.mem_cons_self _ _))]
      rw [ih (ps ++ [(p.1, p.2)]) hnd'.2 ?_]
      · rw [List.filter_cons, if_pos (by simp [hc])]
        simp
      · intro q hq
        have hqk : q.1 ≠ p.1 := by
          intro he
          exact hnd'.1 (he ▸ List.mem_map_of_mem Prod.fst hq)
        rw [aLookup_append_none _ _ _ (hdisj q (List.mem_cons_of_mem _ hq))]
        simp [aLookup, Ne.symm hqk]
    | false =>
      simp only [buildUserLoop, hc, Bool.false_eq_true, if_false]
      rw [ih ps hnd'.2 (fun q hq => hdisj q (List.mem_cons_of_mem _ hq))]
      rw [List.filter_cons, if_neg (by simp [hc])]

/-- A transport oracle returning empty data, used as the base of the
concrete transports instantiated below. -/
def emptyTransport : Transport where
  tasksFetch := fun _ => { records := [], count := 0 }
  jobsSingle := fun _ => none
  jobsGeneric := fun _ => { results := [], count := 0 }
  usersSelf := ⟨1⟩
  usersFetch := fun _ => []
  projectsFetch := fun _ => { records := [], count := 0 }
  cloudStoragesFetch := fun _ => { records := [], count := 0 }

/-- A transport whose single-record job fetch finds nothing while the
generic jobs query returns one record. -/
def jobsFallthroughTransport : Transport :=
  { emptyTransport with jobsGeneric := fun _ => { results := [⟨7⟩], count := 1 } }

/-- A transport whose single-record job fetch yields a record. -/
def jobsSingleTransport : Transport :=
  { emptyTransport with jobsSingle := fun _ => some ⟨9⟩ }

/-- A transport whose task fetch yields one task owning two jobs. -/
def jobsByTaskTransport : Transport :=
  { emptyTransport with
      tasksFetch := fun _ => { records := [⟨5, [⟨11⟩, ⟨12⟩]⟩], count := 1 } }

/-- C2: for every filter given to the jobs-fetch operation that contains
both `taskID` and `jobID`, the operation fails with an `ArgumentError`
before any transport call is made, and whenever the filter passes the
schema validation that error is the conflicting-fields error. -/
theorem jobs_get_conflicting_ids (t : Transport) (filter : Filter)
    (ht : hasKey filter "taskID" = true) (hj : hasKey filter "jobID" = true) :
    (∃ e, jobsGetImpl t filter = (.error e, [])) ∧
      (checkFilter filter jobsSchema = .ok () →
        jobsGetImpl t filter =
          (.error (.conflictingFields ["taskID", "jobID"]), [])) := by
  constructor
  · cases hcf : checkFilter filter jobsSchema with
    | error e => exact ⟨e, by simp [jobsGetImpl, hcf]⟩
    | ok u =>
      exact ⟨.conflictingFields ["taskID", "jobID"], by simp [jobsGetImpl, hcf, ht, hj]⟩
  · intro hcf
    simp [jobsGetImpl, hcf, ht, hj]

/-- C2 witness at filter `{taskID: 1, jobID: 2}`. -/
theorem jobs_get_conflicting_ids_witness :
    hasKey [("taskID", JsVal.int 1), ("jobID", JsVal.int 2)] "taskID" = true ∧
    hasKey [("taskID", JsVal.int 1), ("jobID", JsVal.int 2)] "jobID" = true ∧
    checkFilter [("taskID", JsVal.int 1), ("jobID", JsVal.int 2)] jobsSchema = .ok () ∧
    jobsGetImpl emptyTransport [("taskID", JsVal.int 1), ("jobID", JsVal.int 2)] =
      (.error (.conflictingFields ["taskID", "jobID"]), []) :=
  ⟨rfl, rfl, rfl,
    (jobs_get_conflicting_ids emptyTransport
      [("taskID", JsVal.int 1), ("jobID", JsVal.int 2)] rfl rfl).2 rfl⟩

/-- C7: for every schema-valid filter containing `taskID` and not `jobID`,
the jobs-fetch operation fetches the owning task by that id and returns
that task's job sub-collection (an empty sequence when no such task
exists); its only transport call is the tasks fetch, so the jobs
endpoints are never queried in this case. -/
theorem jobs_get_by_taskID (t : Transport) (filter : Filter)
    (hcf : checkFilter filter jobsSchema = .ok ())
    (ht : hasKey filter "taskID" = true) (hj : hasKey filter "jobID" = false) :
    (∀ rawTask,
        (t.tasksFetch [("id", lookupD filter "taskID")]).records.head? = some rawTask →
        jobsGetImpl t filter =
          (.ok { items := (makeTask rawTask).jobs, count := none },
           [.tasksFetch [("id", lookupD filter "taskID")]])) ∧
    ((t.tasksFetch [("id", lookupD filter "taskID")]).records.head? = none →
        jobsGetImpl t filter =
          (.ok { items := [], count := none },
           [.tasksFetch [("id", lookupD filter "taskID")]])) ∧
    (∀ c ∈ (jobsGetImpl t filter).2,
        c = Call.tasksFetch [("id", lookupD filter "taskID")]) := by
  refine ⟨?_, ?_, ?_⟩
  · intro rawTask hfetch
    simp [jobsGetImpl, hcf, ht, hj, hfetch]
  · intro hfetch
    simp [jobsGetImpl, hcf, ht, hj, hfetch]
  · cases hfetch : (t.tasksFetch [("id", lookupD filter "taskID")]).records.head? with
    | some rawTask => simp [jobsGetImpl, hcf, ht, hj, hfetch]
    | none => simp [jobsGetImpl, hcf, ht, hj, hfetch]

/-- C7 witness at filter `{taskID: 5}` against a transport owning one task
with two jobs. -/
theorem jobs_get_by_taskID_witness :
    checkFilter [("taskID", JsVal.int 5)] jobsSchema = .ok () ∧
    jobsGetImpl jobsByTaskTransport [("taskID", JsVal.int 5)] =
      (.ok { items := [⟨⟨11⟩⟩, ⟨⟨12⟩⟩], count := none },
       [.tasksFetch [("id", JsVal.int 5)]]) :=
  ⟨rfl, (jobs_get_by_taskID jobsByTaskTransport [("taskID", JsVal.int 5)]
    rfl rfl rfl).1 ⟨5, [⟨11⟩, ⟨12⟩]⟩ rfl⟩

/-- C1 (amended): for every schema-valid filter containing `jobID` and not
`taskID`, the jobs-fetch operation performs the direct single-record fetch
by that id and returns a one-element collection wrapping the fetched job
when the fetch yields a record; when it does not, the operation does not
return an empty collection but falls through to the generic paginated jobs
query with the original filter and returns its adapted collection. -/
theorem jobs_get_by_jobID (t : Transport) (filter : Filter)
    (hcf : checkFilter filter jobsSchema = .ok ())
    (hj : hasKey filter "jobID" = true) (ht : hasKey filter "taskID" = false) :
    (∀ rawJob, t.jobsSingle [("id", lookupD filter "jobID")] = some rawJob →
        jobsGetImpl t filter =
          (.ok { items := [makeJob rawJob], count := none },
           [.jobsSingle [("id", lookupD filter "jobID")]])) ∧
    (t.jobsSingle [("id", lookupD filter "jobID")] = none →
        jobsGetImpl t filter =
          (.ok { items := (t.jobsGeneric filter).results.map makeJob,
                 count := some (t.jobsGeneric filter).count },
           [.jobsSingle [("id", lookupD filter "jobID")],
            .jobsGeneric filter])) := by
  constructor
  · intro rawJob hfetch
    simp [jobsGetImpl, hcf, ht, hj, hfetch]
  · intro hfetch
    simp [jobsGetImpl, hcf, ht, hj, hfetch]

/-- C1 witness at filter `{jobID: 4}` against a transport whose
single-record fetch yields a record. -/
theorem jobs_get_by_jobID_witness :
    checkFilter [("jobID", JsVal.int 4)] jobsSchema = .ok () ∧
    jobsGetImpl jobsSingleTransport [("jobID", JsVal.int 4)] =
      (.ok { items := [⟨⟨9⟩⟩], count := none }, [.jobsSingle [("id", JsVal.int 4)]]) :=
  ⟨rfl, (jobs_get_by_jobID jobsSingleTransport [("jobID", JsVal.int 4)]
    rfl rfl rfl).1 ⟨9⟩ rfl⟩

/-- C1 counterexample: on filter `{jobID: 5}` against a transport whose
single-record fetch by id yields no record, the operation returns the
generic jobs query's non-empty adapted collection, not the empty
collection the claim requires. -/
theorem jobs_get_by_jobID_cex :
    Transport.jobsSingle jobsFallthroughTransport [("id", JsVal.int 5)] = none ∧
    jobsGetImpl jobsFallthroughTransport [("jobID", JsVal.int 5)] =
      (.ok { items := [⟨⟨7⟩⟩], count := some 1 },
       [.jobsSingle [("id", JsVal.int 5)], .jobsGeneric [("jobID", JsVal.int 5)]]) ∧
    ({ items := [⟨⟨7⟩⟩], count := some 1 } : JobsResult) ≠
      { items := [], count := none } :=
  ⟨rfl, rfl, by decide⟩

/-- C3: on the tasks-fetch operation with exclusivity group
{`id`, `search`, `projectId`} and allowed companion {`page`}: every
schema-valid filter containing more than one group member fails with the
conflicting-fields error listing the present members, before any transport
call; and every filter containing one group member together with only
allowed companions passes the exclusivity check. -/
theorem tasks_get_exclusive_group :
    (∀ (t : Transport) (filter : Filter),
        checkFilter filter tasksSchema = .ok () →
        1 < (presentMembers filter ["id", "search", "projectId"]).length →
        tasksGetImpl t filter =
          (.error (.conflictingFields
            (presentMembers filter ["id", "search", "projectId"])), [])) ∧
    (∀ (filter : Filter) (m : String),
        m ∈ ["id", "search", "projectId"] →
        (∀ p ∈ filter, p.1 = m ∨ p.1 = "page") →
        checkExclusiveFields filter ["id", "search", "projectId"] ["page"] = .ok ()) := by
  constructor
  · intro t filter hcf hlen
    simp [tasksGetImpl, hcf, checkExclusiveFields, hlen]
  · intro filter m hm hkeys
    have hone : ∀ g ∈ ["id", "search", "projectId"], hasKey filter g = true → g = m := by
      intro g hg hkg
      obtain ⟨p, hp, hpk⟩ := hasKey_exists filter g hkg
      rcases hkeys p hp with h1 | h1
      · rw [← hpk, h1]
      · exfalso
        rw [hpk] at h1
        subst h1
        exact absurd hg (by decide)
    have hsub : ∀ g ∈ presentMembers filter ["id", "search", "projectId"], g = m := by
      intro g hg
      rw [presentMembers, List.mem_filter] at hg
      exact hone g hg.1 hg.2
    have hnd : (presentMembers filter ["id", "search", "projectId"]).Nodup :=
      List.Nodup.filter _ (by decide)
    have hshort : ∀ l : List String, l.Nodup → (∀ g ∈ l, g = m) → l.length ≤ 1 := by
      intro l hndl hall
      match l, hndl, hall with
      | [], _, _ => simp
      | [a], _, _ => simp
      | a :: b :: rest, hndl, hall =>
        exfalso
        have ha := hall a (List.mem_cons_self _ _)
        have hb := hall b (List.mem_cons_of_mem _ (List.mem_cons_self _ _))
        have hab : a ≠ b := by
          have h2 := List.nodup_cons.mp hndl
          intro he
          exact h2.1 (he ▸ List.mem_cons_self b rest)
        exact hab (ha.trans hb.symm)
    rw [checkExclusiveFields,
      if_neg (Nat.not_lt.mpr (hshort _ hnd hsub))]

/-- C3 witness: filter `{id: 5, search: "x"}` fails the tasks-fetch
operation with the conflicting-fields error, while `{id: 5, page: 2}`
passes the exclusivity check. -/
theorem tasks_get_exclusive_group_witness :
    checkFilter [("id", JsVal.int 5), ("search", JsVal.str "x")] tasksSchema = .ok () ∧
    tasksGetImpl emptyTransport [("id", JsVal.int 5), ("search", JsVal.str "x")] =
      (.error (.conflictingFields ["id", "search"]), []) ∧
    checkExclusiveFields [("id", JsVal.int 5), ("page", JsVal.int 2)]
      ["id", "search", "projectId"] ["page"] = .ok () :=
  ⟨rfl,
   tasks_get_exclusive_group.1 emptyTransport
     [("id", JsVal.int 5), ("search", JsVal.str "x")] rfl (by decide),
   tasks_get_exclusive_group.2 [("id", JsVal.int 5), ("page", JsVal.int 2)] "id"
     (by decide) (by decide)⟩

/-- C8: for every filter that both holds an entry the tasks schema rejects
(unknown key, or a value failing its predicate) and holds a conflicting
combination of the mutually exclusive fields, the tasks-fetch operation
reports the schema-validation error (invalid-field or invalid-type), not
the conflicting-fields error: the exclusivity check runs only after the
schema validator succeeds. -/
theorem tasks_get_validation_precedes_exclusivity (t : Transport) (filter : Filter)
    (hbad : hasBadEntry filter tasksSchema = true)
    (hconf : 1 < (presentMembers filter ["id", "search", "projectId"]).length) :
    ∃ k, tasksGetImpl t filter = (.error (.invalidField k), []) ∨
      tasksGetImpl t filter = (.error (.invalidType k), []) := by
  obtain ⟨k, hk | hk⟩ := checkFilter_of_bad filter tasksSchema hbad
  · exact ⟨k, Or.inl (by simp [tasksGetImpl, hk])⟩
  · exact ⟨k, Or.inr (by simp [tasksGetImpl, hk])⟩

/-- C8 witness: filter `{id: 5, search: "x", bogus: 1}` holds both an
unknown key and a conflicting pair, and the operation reports the
schema-validation error. -/
theorem tasks_get_validation_precedes_exclusivity_witness :
    hasBadEntry [("id", JsVal.int 5), ("search", JsVal.str "x"),
      ("bogus", JsVal.int 1)] tasksSchema = true ∧
    1 < (presentMembers [("id", JsVal.int 5), ("search", JsVal.str "x"),
      ("bogus", JsVal.int 1)] ["id", "search", "projectId"]).length ∧
    (∃ k, tasksGetImpl emptyTransport [("id", JsVal.int 5), ("search", JsVal.str "x"),
        ("bogus", JsVal.int 1)] = (.error (.invalidField k), []) ∨
      tasksGetImpl emptyTransport [("id", JsVal.int 5), ("search", JsVal.str "x"),
        ("bogus", JsVal.int 1)] = (.error (.invalidType k), [])) :=
  ⟨rfl, by decide,
   tasks_get_validation_precedes_exclusivity emptyTransport
     [("id", JsVal.int 5), ("search", JsVal.str "x"), ("bogus", JsVal.int 1)]
     rfl (by decide)⟩

/-- A transport returning three raw tasks with declared total 37. -/
def tasksListTransport : Transport :=
  { emptyTransport with
      tasksFetch := fun _ => { records := [⟨1, []⟩, ⟨2, []⟩, ⟨3, []⟩], count := 37 } }

/-- A transport whose generic jobs query returns two records with declared
total 37. -/
def jobsListTransport : Transport :=
  { emptyTransport with
      jobsGeneric := fun _ => { results := [⟨21⟩, ⟨22⟩], count := 37 } }

/-- C5: the adapted collections of the tasks-fetch operation and of the
generic jobs-fetch path contain the constructed domain entities in exactly
the input order of the transport's raw records (same length, pointwise
construction, so no reordering, dropping or deduplication), and their
count attribute equals the server-declared total count carried by the
response (which the transport contract of §6 always attaches). -/
theorem collections_preserve_order_and_count :
    (∀ (t : Transport) (filter : Filter) (res : TasksResult) (log : List Call),
        checkFilter filter tasksSchema = .ok () →
        checkExclusiveFields filter ["id", "search", "projectId"] ["page"] = .ok () →
        tasksGetImpl t filter = (.ok res, log) →
        res.items.length =
          (t.tasksFetch (buildParams filter tasksQueryFields)).records.length ∧
        (∀ i : Nat, res.items[i]? =
          ((t.tasksFetch (buildParams filter tasksQueryFields)).records[i]?).map makeTask) ∧
        res.count = (t.tasksFetch (buildParams filter tasksQueryFields)).count) ∧
    (∀ (t : Transport) (filter : Filter) (res : JobsResult) (log : List Call),
        checkFilter filter jobsSchema = .ok () →
        hasKey filter "taskID" = false → hasKey filter "jobID" = false →
        jobsGetImpl t filter = (.ok res, log) →
        res.items.length = (t.jobsGeneric filter).results.length ∧
        (∀ i : Nat, res.items[i]? =
          ((t.jobsGeneric filter).results[i]?).map makeJob) ∧
        res.count = some (t.jobsGeneric filter).count) := by
  constructor
  · intro t filter res log hcf hex heq
    have hrun : tasksGetImpl t filter =
        (.ok { items := (t.tasksFetch (buildParams filter tasksQueryFields)).records.map makeTask,
               count := (t.tasksFetch (buildParams filter tasksQueryFields)).count },
         [.tasksFetch (buildParams filter tasksQueryFields)]) := by
      simp [tasksGetImpl, hcf, hex]
    rw [hrun] at heq
    injection heq with h1 h2
    injection h1 with h1
    subst h1
    refine ⟨by simp, fun i => by simp [List.getElem?_map], rfl⟩
  · intro t filter res log hcf ht hj heq
    have hrun : jobsGetImpl t filter =
        (.ok { items := (t.jobsGeneric filter).results.map makeJob,
               count := some (t.jobsGeneric filter).count },
         [.jobsGeneric filter]) := by
      simp [jobsGetImpl, hcf, ht, hj]
    rw [hrun] at heq
    injection heq with h1 h2
    injection h1 with h1
    subst h1
    refine ⟨by simp, fun i => by simp [List.getElem?_map], rfl⟩

/-- C5 witness: three raw tasks with declared total 37 adapt to a
three-element sequence, pointwise in order, with count 37; likewise for
the generic jobs path with two records. -/
theorem collections_preserve_order_and_count_witness :
    (∀ i : Nat,
      (({ items := [makeTask ⟨1, []⟩, makeTask ⟨2, []⟩, makeTask ⟨3, []⟩],
          count := 37 } : TasksResult)).items[i]? =
        ((tasksListTransport.tasksFetch
          (buildParams [("name", JsVal.str "a")] tasksQueryFields)).records[i]?).map makeTask) ∧
    (∀ i : Nat,
      (({ items := [makeJob ⟨21⟩, makeJob ⟨22⟩], count := some 37 } : JobsResult)).items[i]? =
        ((jobsListTransport.jobsGeneric []).results[i]?).map makeJob) :=
  ⟨(collections_preserve_order_and_count.1 tasksListTransport [("name", JsVal.str "a")]
      { items := [makeTask ⟨1, []⟩, makeTask ⟨2, []⟩, makeTask ⟨3, []⟩], count := 37 }
      [Call.tasksFetch [("name", JsVal.str "a")]] rfl rfl rfl).2.1,
   (collections_preserve_order_and_count.2 jobsListTransport []
      { items := [makeJob ⟨21⟩, makeJob ⟨22⟩], count := some 37 }
      [Call.jobsGeneric []] rfl rfl rfl rfl).2.1⟩

/-- C9: in the users-fetch operation, when the `self` key is absent or
falsy, the wire query forwarded to the transport is exactly the filter's
truthy-valued entries other than `self`, in order: every falsy-valued
entry (such as `is_active: false` or `id: 0`) and the `self` key itself
are silently omitted, and only truthy-valued keys other than `self` are
forwarded. -/
theorem users_get_forwards_truthy (t : Transport) (filter : Filter)
    (hcf : checkFilter filter usersSchema = .ok ())
    (hself : (hasKey filter "self" && truthy (lookupD filter "self")) = false)
    (hnd : (filter.map Prod.fst).Nodup) :
    usersGetImpl t filter =
      (.ok ((t.usersFetch (buildUserParams filter)).map makeUser),
       [.usersFetch (buildUserParams filter)]) ∧
    buildUserParams filter = filter.filter (fun p => truthy p.2 && p.1 != "self") := by
  constructor
  · simp [usersGetImpl, hcf, hself]
  · have h := buildUserLoop_eq filter [] hnd (fun p _ => rfl)
    simpa [buildUserParams] using h

/-- C9 witness at filter `{id: 0, is_active: false, search: "joe"}`: the
two falsy entries are omitted and only `search` is forwarded. -/
theorem users_get_forwards_truthy_witness :
    checkFilter [("id", JsVal.int 0), ("is_active", JsVal.bool false),
      ("search", JsVal.str "joe")] usersSchema = .ok () ∧
    buildUserParams [("id", JsVal.int 0), ("is_active", JsVal.bool false),
      ("search", JsVal.str "joe")] = [("search", JsVal.str "joe")] :=
  ⟨rfl,
   (users_get_forwards_truthy emptyTransport
     [("id", JsVal.int 0), ("is_active", JsVal.bool false), ("search", JsVal.str "joe")]
     rfl rfl (by decide)).2⟩

theorem buildCloudLoop_lookup_mem (filter : Filter) (k : String)
    (hk : hasKey filter k = true) :
    ∀ (fields : List String) (ps : List (String × String)),
      fields.Nodup → k ∈ fields →
      (∀ f ∈ fields, f ≠ k → camelToSnake f ≠ camelToSnake k) →
      aLookup (buildCloudLoop filter fields ps) (camelToSnake k) =
        some (valueToStr (lookupD filter k)) := by
  intro fields
  induction fields with
  | nil => intro ps _ hmem _; simp at hmem
  | cons f rest ih =>
    intro ps hndf hmem hdist
    have hnd' := List.nodup_cons.mp hndf
    by_cases hf : f = k
    · subst hf
      have hne : ∀ g ∈ rest, camelToSnake g ≠ camelToSnake f := by
        intro g hg
        have hgk : g ≠ f := fun he => hnd'.1 (he ▸ hg)
        exact hdist g (List.mem_cons_of_mem _ hg) hgk
      simp only [buildCloudLoop, hk, if_pos]
      rw [buildCloudLoop_lookup_ne filter (camelToSnake f) rest _ hne]
      exact aLookup_assocSet_self _ _ _
    · have hmem' : k ∈ rest := by
        rcases List.mem_cons.mp hmem with h | h
        · exact absurd h.symm hf
        · exact h
      have hdist' : ∀ g ∈ rest, g ≠ k → camelToSnake g ≠ camelToSnake k :=
        fun g hg hgk => hdist g (List.mem_cons_of_mem _ hg) hgk
      cases hkf : hasKey filter f with
      | true =>
        simp only [buildCloudLoop, hkf, if_pos]
        exact ih _ hnd'.2 hmem' hdist'
      | false =>
        simp only [buildCloudLoop, hkf, Bool.false_eq_true, if_false]
        exact ih _ hnd'.2 hmem' hdist'

/-- A transport for the cloud storages operation. -/
def cloudListTransport : Transport :=
  { emptyTransport with
      cloudStoragesFetch := fun _ => { records := [⟨31⟩], count := 1 } }

/-- C4: in the cloud-storages fetch operation, the wire query sent to the
transport carries the value of a `providerType` filter entry under the
translated key `provider_type` (general case conversion), carries the
value of a `resourceName` entry under the special-case key `resource`,
and never holds any binding under `resource_name`. -/
theorem cloud_storages_query_translation (t : Transport) (filter : Filter)
    (hcf : checkFilter filter cloudSchema = .ok ())
    (hex : checkExclusiveFields filter ["id", "search"] ["page"] = .ok ()) :
    (cloudStoragesGetImpl t filter).2 =
      [.cloudStoragesFetch (buildCloudQuery filter)] ∧
    (∀ v, aLookup filter "providerType" = some v →
        aLookup (buildCloudQuery filter) "provider_type" = some (valueToStr v)) ∧
    (∀ v, aLookup filter "resourceName" = some v →
        aLookup (buildCloudQuery filter) "resource" = some (valueToStr v)) ∧
    aLookup (buildCloudQuery filter) "resource_name" = none := by
  refine ⟨?_, ?_, ?_, ?_⟩
  · simp [cloudStoragesGetImpl, hcf, hex]
  · intro v hv
    have hk : hasKey filter "providerType" = true := by simp [hasKey, hv]
    have hval : lookupD filter "providerType" = v := by simp [lookupD, hv]
    have hps : aLookup (buildCloudLoop filter cloudQueryFields []) "provider_type" =
        some (valueToStr v) := by
      have h := buildCloudLoop_lookup_mem filter "providerType" hk cloudQueryFields []
        (by decide) (by decide) (by decide)
      rw [hval] at h
      exact h
    rw [buildCloudQuery]
    cases hr : hasKey filter "resourceName" with
    | true =>
      simp only [hr, if_pos]
      rw [aLookup_assocSet_ne _ _ _ _ (by decide)]
      exact hps
    | false =>
      simp only [hr, Bool.false_eq_true, if_false]
      exact hps
  · intro v hv
    have hk : hasKey filter "resourceName" = true := by simp [hasKey, hv]
    have hval : lookupD filter "resourceName" = v := by simp [lookupD, hv]
    rw [buildCloudQuery]
    simp only [hk, if_pos]
    rw [hval]
    exact aLookup_assocSet_self _ _ _
  · have hbase : aLookup (buildCloudLoop filter cloudQueryFields []) "resource_name" = none := by
      rw [buildCloudLoop_lookup_ne filter "resource_name" cloudQueryFields [] (by decide)]
      rfl
    rw [buildCloudQuery]
    cases hr : hasKey filter "resourceName" with
    | true =>
      simp only [hr, if_pos]
      rw [aLookup_assocSet_ne _ _ _ _ (by decide)]
      exact hbase
    | false =>
      simp only [hr, Bool.false_eq_true, if_false]
      exact hbase

/-- C4 witness at filter
`{providerType: "AWS_S3_BUCKET", resourceName: "bucket"}`. -/
theorem cloud_storages_query_translation_witness :
    checkFilter [("providerType", JsVal.str "AWS_S3_BUCKET"),
      ("resourceName", JsVal.str "bucket")] cloudSchema = .ok () ∧
    aLookup (buildCloudQuery [("providerType", JsVal.str "AWS_S3_BUCKET"),
      ("resourceName", JsVal.str "bucket")]) "provider_type" = some "AWS_S3_BUCKET" ∧
    aLookup (buildCloudQuery [("providerType", JsVal.str "AWS_S3_BUCKET"),
      ("resourceName", JsVal.str "bucket")]) "resource" = some "bucket" ∧
    aLookup (buildCloudQuery [("providerType", JsVal.str "AWS_S3_BUCKET"),
      ("resourceName", JsVal.str "bucket")]) "resource_name" = none :=
  ⟨rfl,
   (cloud_storages_query_translation cloudListTransport
     [("providerType", JsVal.str "AWS_S3_BUCKET"), ("resourceName", JsVal.str "bucket")]
     rfl rfl).2.1 (JsVal.str "AWS_S3_BUCKET") rfl,
   (cloud_storages_query_translation cloudListTransport
     [("providerType", JsVal.str "AWS_S3_BUCKET"), ("resourceName", JsVal.str "bucket")]
     rfl rfl).2.2.1 (JsVal.str "bucket") rfl,
   (cloud_storages_query_translation cloudListTransport
     [("providerType", JsVal.str "AWS_S3_BUCKET"), ("resourceName", JsVal.str "bucket")]
     rfl rfl).2.2.2⟩

/-- A transport returning one raw project record holding a `tasks` field. -/
def projectsListTransport : Transport :=
  { emptyTransport with
      projectsFetch := fun _ =>
        { records := [[("id", JsVal.int 1), ("name", JsVal.str "p"),
            ("tasks", JsVal.arr [3, 4])]],
          count := 1 } }

/-- C6: the projects-fetch operation builds each domain object from the
raw record after setting `task_ids` to the record's raw `tasks` value, so
for every raw project record the constructed domain object exposes the
record's task identifier list under the field name `task_ids`, and no
`tasks` field is externally visible on it. -/
theorem projects_get_renames_tasks (t : Transport) (filter : Filter)
    (hcf : checkFilter filter projectsSchema = .ok ())
    (hex : checkExclusiveFields filter ["id", "search"] ["page"] = .ok ()) :
    (projectsGetImpl t filter).1 =
      .ok { items := (t.projectsFetch (buildParams filter projectsQueryFields)).records.map
              (fun p => makeProject (projAdapt p)),
            count := (t.projectsFetch (buildParams filter projectsQueryFields)).count } ∧
    (∀ (p : RawProject) (v : JsVal), aLookup p "tasks" = some v →
        aLookup (makeProject (projAdapt p)).fields "task_ids" = some v ∧
        aLookup (makeProject (projAdapt p)).fields "tasks" = none) := by
  constructor
  · simp [projectsGetImpl, hcf, hex]
  · intro p v hv
    have hval : lookupD (projAdapt p) "task_ids" = v := by
      rw [projAdapt, lookupD, aLookup_assocSet_self]
      simp [lookupD, hv]
    constructor
    · simp [makeProject, aLookup, hval]
    · simp [makeProject, aLookup]

/-- C6 witness: a raw record `{id: 1, name: "p", tasks: [3, 4]}` yields a
domain object exposing `task_ids = [3, 4]` and no `tasks` field. -/
theorem projects_get_renames_tasks_witness :
    aLookup (makeProject (projAdapt [("id", JsVal.int 1), ("name", JsVal.str "p"),
        ("tasks", JsVal.arr [3, 4])])).fields "task_ids" = some (JsVal.arr [3, 4]) ∧
    aLookup (makeProject (projAdapt [("id", JsVal.int 1), ("name", JsVal.str "p"),
        ("tasks", JsVal.arr [3, 4])])).fields "tasks" = none ∧
    (projectsGetImpl projectsListTransport []).1 =
      .ok { items := [makeProject (projAdapt [("id", JsVal.int 1), ("name", JsVal.str "p"),
              ("tasks", JsVal.arr [3, 4])])],
            count := 1 } :=
  ⟨((projects_get_renames_tasks projectsListTransport [] rfl rfl).2
      [("id", JsVal.int 1), ("name", JsVal.str "p"), ("tasks", JsVal.arr [3, 4])]
      (JsVal.arr [3, 4]) rfl).1,
   ((projects_get_renames_tasks projectsListTransport [] rfl rfl).2
      [("id", JsVal.int 1), ("name", JsVal.str "p"), ("tasks", JsVal.arr [3, 4])]
      (JsVal.arr [3, 4]) rfl).2,
   (projects_get_renames_tasks projectsListTransport [] rfl rfl).1⟩

/-- C10: the organization-activate operation fails with a type error
(`ArgumentError`) for every argument that is not an `Organization`
instance and leaves the process-wide active-organization marker
unchanged; on success the marker equals the given organization's slug,
and deactivate always resets it to `null`. -/
theorem organizations_activate_marker :
    (∀ (v : JsVal) (c : Option String),
        activateImpl (.other v) c = (.error (.notAnInstance "organization"), c)) ∧
    (∀ (o : Organization) (c : Option String),
        activateImpl (.instOrg o) c = (.ok (), some o.slug)) ∧
    (∀ c : Option String, deactivateImpl c = none) :=
  ⟨fun _ _ => rfl, fun _ _ => rfl, fun _ => rfl⟩

end Cvat
